import Mathlib

/-!
Shallow embedding of the core of the spengo expense tracker
(sheets row helpers, spreadsheet resolution, the storage layer, the
token lifecycle manager and the sync controller paths), together with
theorems settling the specification claims about them.

JavaScript-level conventions used throughout the embedding:
  - nullable values become `Option`;
  - cell values read from / written to spreadsheet rows become `Cell`
    (a string, a number, or the absent `undef` standing for JS
    `undefined`);
  - JS truthiness on strings / cells is modelled explicitly
    (`jsTruthyStr`, `jsTruthy`);
  - machine numbers that only ever hold exact decimals or timestamps
    become `Rat` / `Int`;
  - the ambient sources of freshness (`uuid()`, `Date.now()`,
    `todayStr()`) become explicit parameters of the functions that
    call them.
-/

namespace Spengo

/-- Truthiness of a JS string-or-null value: `null` and the empty
string are falsy. -/
def jsTruthyStr (o : Option String) : Bool :=
  match o with
  | none => false
  | some s => s ≠ ""

/-- A spreadsheet cell value as the JS code sees it. -/
inductive Cell where
  | str : String → Cell
  | num : Rat → Cell
  | undef : Cell
deriving Repr, DecidableEq

/-- JS truthiness of a cell value. -/
def jsTruthy (c : Cell) : Bool :=
  match c with
  | .str s => s ≠ ""
  | .num q => q ≠ 0
  | .undef => false

/-- The string a cell value contributes when used as text
(JS keeps strings as-is; numbers coerce via toString; `undefined`
prints as the word undefined). -/
def cellText (c : Cell) : String :=
  match c with
  | .str s => s
  | .num q => toString q
  | .undef => "undefined"

/-- `row[i]` in JS: out-of-range access yields `undefined`. -/
def getCell (row : List Cell) (i : Nat) : Cell :=
  row.getD i Cell.undef

/-- Value of a list of decimal digit characters. -/
def digitsToNat (ds : List Char) : Nat :=
  ds.foldl (fun a c => a * 10 + (c.toNat - 48)) 0

/-- Model of the JS builtin `parseFloat` on a string: optional sign,
integer digits, optional fraction digits; trailing garbage ignored;
`none` models NaN (no leading number at all). -/
def jsParseFloat (s : String) : Option Rat :=
  let cs := s.data.dropWhile (fun c => c == ' ' || c == '\t' || c == '\n')
  let signAndRest : Rat × List Char :=
    match cs with
    | '-' :: rest => (-1, rest)
    | '+' :: rest => (1, rest)
    | _ => (1, cs)
  let sign := signAndRest.1
  let cs1 := signAndRest.2
  let intPart := cs1.takeWhile Char.isDigit
  let afterInt := cs1.dropWhile Char.isDigit
  let fracPart :=
    match afterInt with
    | '.' :: r => r.takeWhile Char.isDigit
    | _ => []
  if intPart.isEmpty && fracPart.isEmpty then none
  else
    some (sign * ((digitsToNat intPart : Rat) +
      (digitsToNat fracPart : Rat) / ((10 : Rat) ^ fracPart.length)))

/-- `parseFloat(cell)`: a number parses to itself, a string goes
through the string parser, `undefined` gives NaN (`none`). -/
def parseFloatCell (c : Cell) : Option Rat :=
  match c with
  | .num q => some q
  | .str s => jsParseFloat s
  | .undef => none

/-- `parseFloat(x) || 0` as used by `rowToExpense`: NaN collapses to 0. -/
def parseFloatOr0 (c : Cell) : Rat :=
  (parseFloatCell c).getD 0

/-- An expense record `{ id, date, category, amount, comment }`. -/
structure Expense where
  id : String
  date : String
  category : String
  amount : Rat
  comment : String
deriving Repr, DecidableEq

/-- `expenseToRow` (sheetsHelpers.js): serializes an expense into the
five-cell sheets row `[id, date, category, amount, comment]`. -/
def expenseToRow (expense : Expense) : List Cell :=
  [Cell.str expense.id, Cell.str expense.date, Cell.str expense.category,
   Cell.num expense.amount, Cell.str expense.comment]

/-- `rowToExpense` (sheetsHelpers.js): deserializes one row; rows whose
amount is not positive give `null`. `freshId` is the `uuid()` this call
would draw for a row missing an id. -/
def rowToExpense (freshId : String) (row : List Cell) : Option Expense :=
  let amount := parseFloatOr0 (getCell row 3)
  if amount ≤ 0 then none
  else some
    { id := if jsTruthy (getCell row 0) then cellText (getCell row 0) else freshId
      date := if jsTruthy (getCell row 1) then cellText (getCell row 1) else ""
      category := if jsTruthy (getCell row 2) then cellText (getCell row 2) else "other"
      amount := amount
      comment := if jsTruthy (getCell row 4) then cellText (getCell row 4) else "" }

/-- `rowsToExpenses` (sheetsHelpers.js): `(rows || []).map(rowToExpense)
.filter(Boolean)`; `fresh i` is the `uuid()` drawn for row `i`. -/
def rowsToExpenses (fresh : Nat → String) (rows : Option (List (List Cell))) : List Expense :=
  ((rows.getD []).enum).filterMap (fun p => rowToExpense (fresh p.1) p.2)

/-- JS `Array.prototype.findIndex`: index of the first element
satisfying the predicate, `-1` when there is none. -/
def jsFindIndex (p : α → Bool) : List α → Int
  | [] => -1
  | x :: xs =>
    if p x then 0
    else
      let r := jsFindIndex p xs
      if r = -1 then -1 else r + 1

/-- `findRowIndex` (sheetsHelpers.js): 0-based sheet row index of the
expense id inside the column-A values (header excluded from the input),
`-1` if absent, `offset + 1` otherwise to account for the header row. -/
def findRowIndex (idColumn : List (List Cell)) (expenseId : String) : Int :=
  let offset := jsFindIndex (fun r => getCell r 0 == Cell.str expenseId) idColumn
  if offset = -1 then -1 else offset + 1

/-- A `deleteDimension` request body built by `buildDeleteRowRequest`. -/
structure DeleteRowRequest where
  sheetId : Int
  dimension : String
  startIndex : Int
  endIndex : Int
deriving Repr, DecidableEq

/-- `buildDeleteRowRequest` (sheetsHelpers.js). -/
def buildDeleteRowRequest (numericSheetId : Int) (zeroBasedIndex : Int) : DeleteRowRequest :=
  { sheetId := numericSheetId
    dimension := "ROWS"
    startIndex := zeroBasedIndex
    endIndex := zeroBasedIndex + 1 }

/-- Observable outcome of one `removeExpenseRow` call: the row-delete
request it issued (if any) and the numeric sheet id it cached (if any). -/
structure RemoveRowResult where
  deleteRequest : Option DeleteRowRequest
  savedNumericSheetId : Option Int
deriving Repr, DecidableEq

/-- `removeExpenseRow` (sheetsHelpers.js), with the two concurrent
fetches abstracted into their results: `colAValues` is what the
identity-column read returned (`colA.values`, possibly absent), and
`metaNumericId` the sheet id the metadata fetch would yield. -/
def removeExpenseRow (colAValues : Option (List (List Cell)))
    (cachedNumericId : Option Int) (metaNumericId : Int)
    (expenseId : String) : RemoveRowResult :=
  let rowIndex := findRowIndex (colAValues.getD []) expenseId
  if rowIndex = -1 then
    { deleteRequest := none, savedNumericSheetId := none }
  else
    let numericSheetId := cachedNumericId.getD metaNumericId
    { deleteRequest := some (buildDeleteRowRequest numericSheetId rowIndex)
      savedNumericSheetId := if cachedNumericId.isNone then some numericSheetId else none }

/-! ### Storage layer (storageService.js) -/

/-- The browser storage the app writes, one field per key.
`accessTokenS` / `expiresAtS` live in sessionStorage (tab scope), the
rest in localStorage (durable scope). `expensesRaw` is `none` when the
expenses key is missing or unparsable. -/
structure Store where
  accessTokenS : Option String
  expiresAtS : Option Int
  sheetId : Option String
  expensesRaw : Option (List Expense)
  loginHint : Option String
  numericSheetId : Option Int
deriving Repr, DecidableEq

/-- `saveSession` (storageService.js): persist token and expiry. -/
def saveSession (accessToken : String) (expiresAt : Int) (st : Store) : Store :=
  { st with accessTokenS := some accessToken, expiresAtS := some expiresAt }

/-- `clearSession` (storageService.js): remove the access token and the
expiry from sessionStorage, nothing else. -/
def clearSession (st : Store) : Store :=
  { st with accessTokenS := none, expiresAtS := none }

/-- `isTokenExpired` (storageService.js): true when no expiry is stored
or the current time is past it. -/
def isTokenExpired (now : Int) (st : Store) : Bool :=
  match st.expiresAtS with
  | none => true
  | some expiresAt => now > expiresAt

/-- `getExpenses` (storageService.js): cached list, `[]` when missing
or malformed. -/
def getExpenses (st : Store) : List Expense :=
  st.expensesRaw.getD []

/-- The snapshot `getStoredSession` (storageService.js) returns. -/
structure StoredSession where
  accessToken : Option String
  sheetId : Option String
  expenses : List Expense
  loginHint : String
  tokenExpired : Bool
deriving Repr, DecidableEq

/-- `getStoredSession` (storageService.js). -/
def getStoredSession (now : Int) (st : Store) : StoredSession :=
  { accessToken := st.accessTokenS
    sheetId := st.sheetId
    expenses := getExpenses st
    loginHint := st.loginHint.getD ""
    tokenExpired := isTokenExpired now st }

/-- `clearAll` (storageService.js): wipe every key in both scopes. -/
def clearAll (st : Store) : Store :=
  let st1 := clearSession st
  { st1 with sheetId := none, expensesRaw := none, loginHint := none,
             numericSheetId := none }

/-! ### Spreadsheet resolution (sheetsService.js / sheetsHelpers.js) -/

/-- `CONFIG.SHEET_NAME` (config.js). -/
def SHEET_NAME : String := "spends"

/-- `CONFIG.SPREADSHEET_TITLE` (config.js). -/
def SPREADSHEET_TITLE : String := "SpenGo"

/-- `headerRow` (sheetsHelpers.js): the fixed header written on
spreadsheet creation. -/
def headerRow : List (List String) :=
  [["ID", "Date", "Category", "Amount", "Comment"]]

/-- Outcomes of the remote calls `resolveSpreadsheet` may make, as an
oracle: whether `verifySpreadsheet` succeeds per id, what
`findExistingSpreadsheet` returns, and the id `createSpreadsheet`
would mint. -/
structure SheetsEnv where
  verifyOk : String → Bool
  searchResult : Option String
  createdId : String

/-- Observable outcome of one `resolveSpreadsheet` run. `createdCount`
counts `createSpreadsheet` calls; `createdHeader` / `createdSheetTitles`
record what a creation wrote; `storedSheetId` is the durable sheet-id
key after the run; `clearedCachedId` records that a stale cached id was
removed along the way. -/
structure ResolveResult where
  spreadsheetId : String
  isNew : Bool
  createdCount : Nat
  createdHeader : Option (List (List String))
  createdSheetTitles : Option (List String)
  storedSheetId : Option String
  clearedCachedId : Bool
deriving Repr, DecidableEq

/-- The search-then-create tail of `resolveSpreadsheet`
(sheetsService.js), reached when no verified cached id exists. -/
def resolveSpreadsheetTail (env : SheetsEnv) (cleared : Bool) : ResolveResult :=
  match env.searchResult with
  | some foundId =>
    { spreadsheetId := foundId, isNew := false, createdCount := 0,
      createdHeader := none, createdSheetTitles := none,
      storedSheetId := some foundId, clearedCachedId := cleared }
  | none =>
    { spreadsheetId := env.createdId, isNew := true, createdCount := 1,
      createdHeader := some headerRow, createdSheetTitles := some [SHEET_NAME],
      storedSheetId := some env.createdId, clearedCachedId := cleared }

/-- `resolveSpreadsheet` (sheetsService.js): verify the cached id, else
clear it and search by exact title, else create a fresh spreadsheet
(single sheet plus header row) — persisting the chosen id. -/
def resolveSpreadsheet (env : SheetsEnv) (storedSheetId : Option String) : ResolveResult :=
  if jsTruthyStr storedSheetId then
    let sid := storedSheetId.getD ""
    if env.verifyOk sid then
      { spreadsheetId := sid, isNew := false, createdCount := 0,
        createdHeader := none, createdSheetTitles := none,
        storedSheetId := storedSheetId, clearedCachedId := false }
    else resolveSpreadsheetTail env true
  else resolveSpreadsheetTail env false

/-! ### Sync controller mutation paths (expenseController.js and the
part_004 variant) -/

/-- How one `submitExpense` call ends. -/
inductive SubmitOutcome where
  | validationAmount
  | validationCategory
  | added
  | remoteError
deriving Repr, DecidableEq

/-- `submitExpense` (expenseController.js, identically in the part_004
variant): validate the draft, then `await appendExpense` and only on
remote success push the record into the in-memory list and persist it.
`parsedAmount` is the `parseFloat` of the amount field (`none` = NaN),
`freshId` the `uuid()` drawn, `today` the `todayStr()` value, and
`remoteOk` whether the remote append succeeds. Returns the in-memory
expenses, the storage, and the outcome. -/
def submitExpense (freshId today comment : String) (parsedAmount : Option Rat)
    (selectedCat : Option String) (remoteOk : Bool)
    (expenses : List Expense) (st : Store) :
    List Expense × Store × SubmitOutcome :=
  match parsedAmount with
  | none => (expenses, st, SubmitOutcome.validationAmount)
  | some amount =>
    if amount ≤ 0 then (expenses, st, SubmitOutcome.validationAmount)
    else
      match selectedCat with
      | none => (expenses, st, SubmitOutcome.validationCategory)
      | some cat =>
        let expense : Expense :=
          { id := freshId, date := today, category := cat,
            amount := amount, comment := comment }
        if remoteOk then
          let expenses1 := expenses ++ [expense]
          (expenses1, { st with expensesRaw := some expenses1 }, SubmitOutcome.added)
        else
          (expenses, st, SubmitOutcome.remoteError)

/-- How one `deleteExpense` call ends. -/
inductive DeleteOutcome where
  | deleted
  | remoteError
deriving Repr, DecidableEq

/-- `deleteExpense` (expenseController.js): filter the record out of
the in-memory list and persist immediately, then fire the remote
delete; a remote failure only toasts and never restores the record. -/
def deleteExpense (id : String) (remoteOk : Bool)
    (expenses : List Expense) (st : Store) :
    List Expense × Store × DeleteOutcome :=
  let expenses1 := expenses.filter (fun e => e.id != id)
  let st1 := { st with expensesRaw := some expenses1 }
  (expenses1, st1, if remoteOk then DeleteOutcome.deleted else DeleteOutcome.remoteError)

/-- `deleteExpense` as written in the part_004 variant of the expense
controller: `await` the remote delete first and only on success filter
the list and persist; on failure the record stays. -/
def deleteExpenseV2 (id : String) (remoteOk : Bool)
    (expenses : List Expense) (st : Store) :
    List Expense × Store × DeleteOutcome :=
  if remoteOk then
    let expenses1 := expenses.filter (fun e => e.id != id)
    (expenses1, { st with expensesRaw := some expenses1 }, DeleteOutcome.deleted)
  else
    (expenses, st, DeleteOutcome.remoteError)

/-! ### Auth controller (authController.js) -/

/-- The slice of the mutable app STATE the auth controller touches. -/
structure AppAuthState where
  authStatus : String
  accessToken : Option String
deriving Repr, DecidableEq

/-- `onSilentFail` (authController.js): clear the tab-scoped session,
drop the in-memory token and transition to the unauthenticated state. -/
def onSilentFail (st : Store) (app : AppAuthState) : Store × AppAuthState :=
  (clearSession st,
   { app with accessToken := none, authStatus := "unauthenticated" })

/-! ### Token lifecycle manager (the authService variant appended in
storageService.js: silentRefresh / waitForToken / timer / response and
error channels) -/

/-- The kind tag of the flow currently in flight (`_pendingFlowType`). -/
inductive Flow where
  | silent
  | interactive
deriving Repr, DecidableEq

/-- Externally observable effects of the manager: promises resolved or
rejected for queued waiters, callbacks fired, and the provider call
issued by `silentRefresh`. -/
inductive AuthEvent where
  | resolveWaiter : Nat → String → AuthEvent
  | rejectWaiter : Nat → String → AuthEvent
  | cbSignIn : String → AuthEvent
  | cbSilentFail : AuthEvent
  | cbError : String → AuthEvent
  | requestAccessToken : String → AuthEvent
deriving Repr, DecidableEq

/-- The manager's mutable module state. `tokenClientReady` models
`_tokenClient !== null`, `timerArmed` a live `_silentRefreshTimer`,
`tokenWaiters` the queue of pending `waitForToken` promises (by id),
and `store` the browser storage it reads and writes. -/
structure AuthState where
  tokenClientReady : Bool
  accessToken : Option String
  pendingFlowType : Option Flow
  timerArmed : Bool
  tokenWaiters : List Nat
  store : Store
deriving Repr, DecidableEq

/-- A GIS token response `{ error?, access_token, expires_in }`. -/
structure TokenResponse where
  error : Option String
  access_token : String
  expires_in : Int
deriving Repr, DecidableEq

/-- A GIS error-channel payload `{ error?, type?, message? }`. -/
structure AuthErr where
  error : Option String
  type : Option String
  message : Option String
deriving Repr, DecidableEq

/-- `isSilentAuthError` (authHelpers.js). -/
def isSilentAuthError (err : AuthErr) : Bool :=
  err.error == some "access_denied" || err.type == some "popup_closed"

/-- `formatAuthError` (authHelpers.js); the final `JSON.stringify`
fallback is rendered as a fixed placeholder string. -/
def formatAuthError (err : AuthErr) : String :=
  err.message.getD (err.error.getD (err.type.getD "[object Object]"))

/-- `silentRefresh` (storageService.js token-manager segment): no-op
while the token client is not ready; otherwise tag a silent flow, arm
the 5-second fallback timer, and request a token with the stored
login hint. -/
def silentRefresh (st : AuthState) : AuthState × List AuthEvent :=
  if !st.tokenClientReady then (st, [])
  else
    ({ st with pendingFlowType := some Flow.silent, timerArmed := true },
     [AuthEvent.requestAccessToken (st.store.loginHint.getD "")])

/-- What a `waitForToken` call hands back to its caller. -/
inductive WaitOutcome where
  | immediate : String → WaitOutcome
  | enqueued : WaitOutcome
deriving Repr, DecidableEq

/-- `waitForToken` (storageService.js token-manager segment): resolve
immediately when a truthy in-memory token exists and is unexpired,
else enqueue the caller and start a `silentRefresh` unless a silent
flow is already pending. -/
def waitForToken (now : Int) (wid : Nat) (st : AuthState) :
    AuthState × WaitOutcome × List AuthEvent :=
  if jsTruthyStr st.accessToken && !isTokenExpired now st.store then
    (st, WaitOutcome.immediate (st.accessToken.getD ""), [])
  else
    let st1 := { st with tokenWaiters := st.tokenWaiters ++ [wid] }
    if st1.pendingFlowType ≠ some Flow.silent then
      let r := silentRefresh st1
      (r.1, WaitOutcome.enqueued, r.2)
    else
      (st1, WaitOutcome.enqueued, [])

/-- The body of the 5-second fallback timer armed by `silentRefresh`:
when the silent flow is still pending it clears the tag and fires
`onSilentFail` — and nothing else. -/
def timerFire (st : AuthState) : AuthState × List AuthEvent :=
  if st.pendingFlowType = some Flow.silent then
    ({ st with pendingFlowType := none, timerArmed := false },
     [AuthEvent.cbSilentFail])
  else
    ({ st with timerArmed := false }, [])

/-- `_handleFailedFlow`: reject every queued waiter with the error,
then route to `onSilentFail` for silent flows and `onError` otherwise. -/
def handleFailedFlow (flowType : Option Flow) (errorMessage : String)
    (st : AuthState) : AuthState × List AuthEvent :=
  let waiters := st.tokenWaiters
  let st1 := { st with tokenWaiters := [] }
  (st1,
   waiters.map (fun w => AuthEvent.rejectWaiter w errorMessage) ++
    [if flowType = some Flow.silent then AuthEvent.cbSilentFail
     else AuthEvent.cbError errorMessage])

/-- `_onTokenResponse`: cancel the timer, consume the flow tag; on an
error payload fail the flow, otherwise store the token with its
expiry (60-second safety margin), resolve every queued waiter with it
and fire `onSignIn`. -/
def onTokenResponse (now : Int) (response : TokenResponse) (st : AuthState) :
    AuthState × List AuthEvent :=
  let st1 := { st with timerArmed := false }
  let flowType := st1.pendingFlowType
  let st2 := { st1 with pendingFlowType := none }
  if jsTruthyStr response.error then
    handleFailedFlow flowType ("OAuth error: " ++ response.error.getD "") st2
  else
    let tok := response.access_token
    let expiresAt := now + (response.expires_in - 60) * 1000
    let st3 := { st2 with
      accessToken := some tok,
      store := { st2.store with accessTokenS := some tok,
                                expiresAtS := some expiresAt } }
    let waiters := st3.tokenWaiters
    let st4 := { st3 with tokenWaiters := [] }
    (st4, waiters.map (fun w => AuthEvent.resolveWaiter w tok) ++
          [AuthEvent.cbSignIn tok])

/-- `_onTokenError`: cancel the timer, consume the flow tag; benign
interruptions are swallowed for silent flows and for a closed popup,
surfaced softly otherwise; genuine errors fail the flow. -/
def onTokenError (err : AuthErr) (st : AuthState) : AuthState × List AuthEvent :=
  let st1 := { st with timerArmed := false }
  let flowType := st1.pendingFlowType
  let st2 := { st1 with pendingFlowType := none }
  if isSilentAuthError err then
    if flowType = some Flow.silent then (st2, [])
    else if err.type == some "popup_closed" then (st2, [])
    else (st2, [AuthEvent.cbError "Access was denied. Please grant the required permissions."])
  else
    handleFailedFlow flowType ("OAuth error: " ++ formatAuthError err) st2

/-- N successive `waitForToken` calls (one per waiter id), collecting
every emitted event. -/
def runWaiters (now : Int) (wids : List Nat) (st : AuthState) :
    AuthState × List AuthEvent :=
  match wids with
  | [] => (st, [])
  | w :: ws =>
    let r1 := waitForToken now w st
    let r2 := runWaiters now ws r1.1
    (r2.1, r1.2.2 ++ r2.2)

/-- Recognizer for the provider call that starts a refresh flow. -/
def isRefreshStart (ev : AuthEvent) : Bool :=
  match ev with
  | AuthEvent.requestAccessToken _ => true
  | _ => false

/-! ### Helper lemmas -/

/-- `jsFindIndex` finds `k` when the element at `k` matches and no
earlier element does. -/
theorem jsFindIndex_eq_of {α : Type} (p : α → Bool) :
    ∀ (l : List α) (k : Nat) (x : α), l[k]? = some x → p x = true →
      (∀ y ∈ l.take k, p y = false) → jsFindIndex p l = (k : Int) := by
  intro l
  induction l with
  | nil => intro k x hget; simp at hget
  | cons a as ih =>
    intro k x hget hp hpre
    cases k with
    | zero =>
      simp at hget
      subst hget
      simp [jsFindIndex, hp]
    | succ k1 =>
      have ha : p a = false := hpre a (by simp [List.take])
      have hrec : jsFindIndex p as = (k1 : Int) := by
        refine ih k1 x (by simpa using hget) hp ?_
        intro y hy
        exact hpre y (by simp [List.take]; exact Or.inr hy)
      have hne : ((k1 : Int)) ≠ -1 := by omega
      simp [jsFindIndex, ha, hrec, hne]

/-- `jsFindIndex` yields `-1` when no element matches. -/
theorem jsFindIndex_neg {α : Type} (p : α → Bool) :
    ∀ (l : List α), (∀ y ∈ l, p y = false) → jsFindIndex p l = -1 := by
  intro l
  induction l with
  | nil => intro h; simp [jsFindIndex]
  | cons a as ih =>
    intro h
    have ha : p a = false := h a (by simp)
    have hrec := ih (fun y hy => h y (by simp [hy]))
    simp [jsFindIndex, ha, hrec]

/-! ### Claims -/

/-- C5: for an identity column read from A2 downward with an id at
zero-based offset `k` (first occurrence), the computed sheet row index
is `k + 1` (header correction), and the emitted delete-dimension
request targets `startIndex = k + 1`, `endIndex = k + 2`. -/
theorem claim_C5_header_corrected_delete_request
    (idColumn : List (List Cell)) (expenseId : String) (numericSheetId : Int)
    (k : Nat) (row : List Cell)
    (hrow : idColumn[k]? = some row)
    (hmatch : getCell row 0 = Cell.str expenseId)
    (hbefore : ∀ r ∈ idColumn.take k, getCell r 0 ≠ Cell.str expenseId) :
    findRowIndex idColumn expenseId = (k : Int) + 1 ∧
    buildDeleteRowRequest numericSheetId ((k : Int) + 1) =
      { sheetId := numericSheetId, dimension := "ROWS",
        startIndex := (k : Int) + 1, endIndex := (k : Int) + 2 } := by
  constructor
  · have h1 : jsFindIndex (fun r => getCell r 0 == Cell.str expenseId) idColumn = (k : Int) := by
      refine jsFindIndex_eq_of _ idColumn k row hrow (by simp [hmatch]) ?_
      intro y hy
      simpa using hbefore y hy
    have hne : ((k : Int)) ≠ -1 := by omega
    simp [findRowIndex, h1, hne]
  · have harith : (k : Int) + 1 + 1 = (k : Int) + 2 := by omega
    simp [buildDeleteRowRequest, harith]

/-- Witness for C5, at the spec scenario: column `["A","X","C"]`,
id `"X"` → row index 2, delete request start 2, end 3. -/
theorem claim_C5_witness :
    findRowIndex [[Cell.str "A"], [Cell.str "X"], [Cell.str "C"]] "X" = 2 ∧
    buildDeleteRowRequest 0 2 =
      { sheetId := 0, dimension := "ROWS", startIndex := 2, endIndex := 3 } := by
  have h := claim_C5_header_corrected_delete_request
    [[Cell.str "A"], [Cell.str "X"], [Cell.str "C"]] "X" 0 1 [Cell.str "X"]
    rfl rfl (by decide)
  exact ⟨by simpa using h.1, by simpa using h.2⟩

/-- C6: deleting an id that is absent from the identity column is a
silent no-op — `removeExpenseRow` issues no row-delete request, caches
nothing, and returns normally; hence a second delete of an
already-deleted id is a no-op, not an error. -/
theorem claim_C6_delete_missing_id_noop
    (colAValues : Option (List (List Cell))) (cachedNumericId : Option Int)
    (metaNumericId : Int) (expenseId : String)
    (habsent : ∀ r ∈ colAValues.getD [], getCell r 0 ≠ Cell.str expenseId) :
    removeExpenseRow colAValues cachedNumericId metaNumericId expenseId =
      { deleteRequest := none, savedNumericSheetId := none } := by
  have h1 : jsFindIndex (fun r => getCell r 0 == Cell.str expenseId)
      (colAValues.getD []) = -1 := by
    refine jsFindIndex_neg _ _ ?_
    intro y hy
    simpa using habsent y hy
  simp [removeExpenseRow, findRowIndex, h1]

/-- Witness for C6 at a concrete column without the id. -/
theorem claim_C6_witness :
    removeExpenseRow (some [[Cell.str "A"], [Cell.str "C"]]) none 7 "X" =
      { deleteRequest := none, savedNumericSheetId := none } :=
  claim_C6_delete_missing_id_noop (some [[Cell.str "A"], [Cell.str "C"]]) none 7 "X"
    (by decide)

/-- C8: `onSilentFail` clears only the tab-scoped token state (access
token and expiry), sets the session status to unauthenticated, and
leaves every durable key (store id, cached records, login hint,
numeric sheet id) unchanged. -/
theorem claim_C8_silent_fail_frame (st : Store) (app : AppAuthState) :
    (onSilentFail st app).1.accessTokenS = none ∧
    (onSilentFail st app).1.expiresAtS = none ∧
    (onSilentFail st app).2.authStatus = "unauthenticated" ∧
    (onSilentFail st app).2.accessToken = none ∧
    (onSilentFail st app).1.sheetId = st.sheetId ∧
    (onSilentFail st app).1.expensesRaw = st.expensesRaw ∧
    (onSilentFail st app).1.loginHint = st.loginHint ∧
    (onSilentFail st app).1.numericSheetId = st.numericSheetId := by
  simp [onSilentFail, clearSession]

/-- C7: serializing a Record (per the data model: a client-assigned
non-empty id and a category tag, amount positive) with `expenseToRow`
and deserializing with `rowToExpense` restores it in all five fields;
a row whose amount cell fails to parse or parses non-positive maps to
`null`, and `rowsToExpenses` only ever yields positive-amount records,
so such a row never round-trips. -/
theorem claim_C7_row_roundtrip :
    (∀ (e : Expense) (freshId : String),
        0 < e.amount → e.id ≠ "" → e.category ≠ "" →
        rowToExpense freshId (expenseToRow e) = some e) ∧
    (∀ (freshId : String) (row : List Cell),
        (parseFloatCell (getCell row 3) = none ∨
         ∃ q, parseFloatCell (getCell row 3) = some q ∧ q ≤ 0) →
        rowToExpense freshId row = none) ∧
    (∀ (fresh : Nat → String) (rows : Option (List (List Cell))) (e : Expense),
        e ∈ rowsToExpenses fresh rows → 0 < e.amount) := by
  refine ⟨?_, ?_, ?_⟩
  · rintro ⟨i, d, c, a, m⟩ freshId ha hi hc
    have hna : ¬ (a ≤ 0) := not_le.mpr ha
    simp only [rowToExpense, expenseToRow, getCell, List.getD, parseFloatOr0,
      parseFloatCell, Option.getD_some]
    rw [if_neg ?_]
    · simp only [Option.some.injEq, Expense.mk.injEq]
      refine ⟨by simp [jsTruthy, cellText, hi], ?_, by simp [jsTruthy, cellText, hc],
        rfl, ?_⟩
      · rcases eq_or_ne d "" with hd | hd <;> simp [jsTruthy, cellText, hd]
      · rcases eq_or_ne m "" with hm | hm <;> simp [jsTruthy, cellText, hm]
    · simpa using hna
  · intro freshId row hpar
    have h0 : parseFloatOr0 (getCell row 3) ≤ 0 := by
      rcases hpar with h | ⟨q, hq, hq0⟩
      · simp [parseFloatOr0, h]
      · simp [parseFloatOr0, hq, hq0]
    simp [rowToExpense, h0]
  · intro fresh rows e he
    simp only [rowsToExpenses, List.mem_filterMap] at he
    obtain ⟨p, hp, hpe⟩ := he
    by_cases hc : parseFloatOr0 (getCell p.2 3) ≤ 0
    · simp [rowToExpense, hc] at hpe
    · simp only [rowToExpense, if_neg hc, Option.some.injEq] at hpe
      have hamt : e.amount = parseFloatOr0 (getCell p.2 3) := by
        rw [← hpe]
      rw [hamt]
      exact lt_of_not_le hc

/-- Witness for C7 at the record
`{amount: 12.5, category: food, comment: empty}` and a concrete
non-positive row. -/
theorem claim_C7_witness :
    (rowToExpense "fresh" (expenseToRow
        { id := "id1", date := "2026-10-11", category := "food",
          amount := 25/2, comment := "" }) =
      some { id := "id1", date := "2026-10-11", category := "food",
             amount := 25/2, comment := "" }) ∧
    rowToExpense "fresh" [Cell.str "id2", Cell.str "2026-10-11", Cell.str "food",
      Cell.num (-5), Cell.str ""] = none := by
  constructor
  · exact claim_C7_row_roundtrip.1
      { id := "id1", date := "2026-10-11", category := "food",
        amount := 25/2, comment := "" } "fresh"
      (by norm_num) (by decide) (by decide)
  · exact claim_C7_row_roundtrip.2.1 "fresh"
      [Cell.str "id2", Cell.str "2026-10-11", Cell.str "food",
       Cell.num (-5), Cell.str ""]
      (Or.inr ⟨-5, rfl, by norm_num⟩)

/-- C9: `resolveSpreadsheet` follows verify → search → create: a
truthy cached id that verifies is returned as-is with `isNew = false`
and nothing created; on verification failure the cached id is cleared
and an exact-name search adopts a found store with `isNew = false`;
only when both tiers yield nothing is one store created — with the
single sheet and the fixed 5-column header row — and returned with
`isNew = true`; in every run at most one store is created. -/
theorem claim_C9_three_tier_resolution :
    (∀ (env : SheetsEnv) (sid : String), sid ≠ "" → env.verifyOk sid = true →
        resolveSpreadsheet env (some sid) =
          { spreadsheetId := sid, isNew := false, createdCount := 0,
            createdHeader := none, createdSheetTitles := none,
            storedSheetId := some sid, clearedCachedId := false }) ∧
    (∀ (env : SheetsEnv) (sid fid : String), sid ≠ "" → env.verifyOk sid = false →
        env.searchResult = some fid →
        resolveSpreadsheet env (some sid) =
          { spreadsheetId := fid, isNew := false, createdCount := 0,
            createdHeader := none, createdSheetTitles := none,
            storedSheetId := some fid, clearedCachedId := true }) ∧
    (∀ (env : SheetsEnv) (storedSheetId : Option String),
        env.searchResult = none →
        (jsTruthyStr storedSheetId = false ∨
          env.verifyOk (storedSheetId.getD "") = false) →
        resolveSpreadsheet env storedSheetId =
          { spreadsheetId := env.createdId, isNew := true, createdCount := 1,
            createdHeader := some headerRow,
            createdSheetTitles := some [SHEET_NAME],
            storedSheetId := some env.createdId,
            clearedCachedId := jsTruthyStr storedSheetId }) ∧
    (∀ (env : SheetsEnv) (storedSheetId : Option String),
        (resolveSpreadsheet env storedSheetId).createdCount ≤ 1) := by
  refine ⟨?_, ?_, ?_, ?_⟩
  · intro env sid hne hok
    simp [resolveSpreadsheet, jsTruthyStr, hne, hok]
  · intro env sid fid hne hbad hfound
    simp [resolveSpreadsheet, resolveSpreadsheetTail, jsTruthyStr, hne, hbad, hfound]
  · intro env storedSheetId hsearch hmiss
    rcases hmiss with hfalsy | hbad
    · simp [resolveSpreadsheet, resolveSpreadsheetTail, hfalsy, hsearch]
    · by_cases htr : jsTruthyStr storedSheetId = true
      · simp [resolveSpreadsheet, resolveSpreadsheetTail, htr, hbad, hsearch]
      · simp only [Bool.not_eq_true] at htr
        simp [resolveSpreadsheet, resolveSpreadsheetTail, htr, hsearch]
  · intro env storedSheetId
    unfold resolveSpreadsheet resolveSpreadsheetTail
    by_cases h1 : jsTruthyStr storedSheetId = true <;>
      by_cases h2 : env.verifyOk (storedSheetId.getD "") = true <;>
      rcases hs : env.searchResult with _ | fid <;>
      simp [h1, h2, hs]

/-- Witness for C9: no cached id verifies and the search finds
nothing, so exactly one store is created and returned as new. -/
theorem claim_C9_witness :
    resolveSpreadsheet
      { verifyOk := fun _ => false, searchResult := none, createdId := "NEW" }
      (some "OLD") =
      { spreadsheetId := "NEW", isNew := true, createdCount := 1,
        createdHeader := some headerRow, createdSheetTitles := some [SHEET_NAME],
        storedSheetId := some "NEW", clearedCachedId := true } := by
  have h := claim_C9_three_tier_resolution.2.2.1
    { verifyOk := fun _ => false, searchResult := none, createdId := "NEW" }
    (some "OLD") rfl (Or.inr rfl)
  simpa [jsTruthyStr] using h

/-- C10: with no stored expiry timestamp `isTokenExpired` reports
true (even when an access-token string is present), so
`getStoredSession` reports `tokenExpired = true` and `waitForToken`
never resolves immediately: it enqueues the caller and — when the
client is ready and no silent flow is pending — triggers a silent
refresh. -/
theorem claim_C10_missing_expiry_is_expired
    (now : Int) (st : Store) (ast : AuthState) (wid : Nat)
    (hst : st.expiresAtS = none) (hast : ast.store.expiresAtS = none) :
    isTokenExpired now st = true ∧
    (getStoredSession now st).tokenExpired = true ∧
    (waitForToken now wid ast).2.1 = WaitOutcome.enqueued ∧
    (waitForToken now wid ast).1.tokenWaiters = ast.tokenWaiters ++ [wid] ∧
    (ast.tokenClientReady = true → ast.pendingFlowType ≠ some Flow.silent →
      (waitForToken now wid ast).2.2 =
        [AuthEvent.requestAccessToken (ast.store.loginHint.getD "")]) := by
  have hexp : isTokenExpired now ast.store = true := by
    simp [isTokenExpired, hast]
  have hguard : (jsTruthyStr ast.accessToken && !isTokenExpired now ast.store) = false := by
    simp [hexp]
  refine ⟨by simp [isTokenExpired, hst], by simp [getStoredSession, isTokenExpired, hst],
    ?_, ?_, ?_⟩
  · unfold waitForToken
    rw [hguard]
    simp only [Bool.false_eq_true, if_false]
    split
    · unfold silentRefresh
      split <;> simp
    · simp
  · unfold waitForToken
    rw [hguard]
    simp only [Bool.false_eq_true, if_false]
    split
    · unfold silentRefresh
      split <;> simp
    · simp
  · intro hready hp
    unfold waitForToken
    rw [hguard]
    simp [silentRefresh, hp, hready]

/-- Witness for C10: a token string is present but no expiry is
stored; the caller is enqueued and a refresh request goes out. -/
theorem claim_C10_witness :
    (waitForToken 0 5
      { tokenClientReady := true, accessToken := some "tok",
        pendingFlowType := none, timerArmed := false, tokenWaiters := [],
        store := { accessTokenS := some "tok", expiresAtS := none,
                   sheetId := none, expensesRaw := none, loginHint := none,
                   numericSheetId := none } }).2.1 = WaitOutcome.enqueued ∧
    (waitForToken 0 5
      { tokenClientReady := true, accessToken := some "tok",
        pendingFlowType := none, timerArmed := false, tokenWaiters := [],
        store := { accessTokenS := some "tok", expiresAtS := none,
                   sheetId := none, expensesRaw := none, loginHint := none,
                   numericSheetId := none } }).2.2 =
      [AuthEvent.requestAccessToken ""] := by
  have h := claim_C10_missing_expiry_is_expired 0
    { accessTokenS := some "tok", expiresAtS := none, sheetId := none,
      expensesRaw := none, loginHint := none, numericSheetId := none }
    { tokenClientReady := true, accessToken := some "tok",
      pendingFlowType := none, timerArmed := false, tokenWaiters := [],
      store := { accessTokenS := some "tok", expiresAtS := none,
                 sheetId := none, expensesRaw := none, loginHint := none,
                 numericSheetId := none } } 5 rfl rfl
  exact ⟨h.2.2.1, by simpa using h.2.2.2.2 rfl (by simp)⟩

/-- C2: evaluated at the failing input. Two `waitForToken` calls with
no token coalesce onto one silent refresh with both callers queued —
the single-flight half of the claim holds — but two of the flow's
conclusion paths hand the queued waiters no outcome at all: firing the
5-second fallback timer clears the flow tag and emits only the
silent-failure callback, and the error channel with a benign silent
payload (access denied / no active provider session) clears the tag
and emits nothing; in both the queue still holds both waiters, neither
resolved nor rejected. Only the response channel (final conjunct,
shown for contrast) drains the queue, so the claim's
all-resolve-or-all-reject guarantee fails on the code. -/
theorem claim_C2_waiters_left_pending :
    runWaiters 0 [0, 1]
      ⟨true, none, none, false, [], ⟨none, none, none, none, none, none⟩⟩ =
      (⟨true, none, some Flow.silent, true, [0, 1],
        ⟨none, none, none, none, none, none⟩⟩,
       [AuthEvent.requestAccessToken ""]) ∧
    timerFire
      ⟨true, none, some Flow.silent, true, [0, 1],
       ⟨none, none, none, none, none, none⟩⟩ =
      (⟨true, none, none, false, [0, 1], ⟨none, none, none, none, none, none⟩⟩,
       [AuthEvent.cbSilentFail]) ∧
    onTokenError ⟨some "access_denied", none, none⟩
      ⟨true, none, some Flow.silent, true, [0, 1],
       ⟨none, none, none, none, none, none⟩⟩ =
      (⟨true, none, none, false, [0, 1], ⟨none, none, none, none, none, none⟩⟩,
       []) ∧
    (onTokenResponse 0 ⟨none, "tok", 3599⟩
      ⟨true, none, some Flow.silent, true, [0, 1],
       ⟨none, none, none, none, none, none⟩⟩).2 =
      [AuthEvent.resolveWaiter 0 "tok", AuthEvent.resolveWaiter 1 "tok",
       AuthEvent.cbSignIn "tok"] := by
  refine ⟨?_, ?_, ?_, ?_⟩
  · simp [runWaiters, waitForToken, silentRefresh, isTokenExpired, jsTruthyStr]
  · simp [timerFire]
  · simp [onTokenError, isSilentAuthError]
  · simp [onTokenResponse, jsTruthyStr]

/-- C1 counterexample: a valid draft (amount 12.5, category food,
empty comment) submitted while the remote append fails leaves the
local cache WITHOUT the record — `submitExpense` awaits the remote
append before touching the cache, so the cache is not written first
and the record is absent after the failure, contradicting the claimed
optimistic-local-first behavior. -/
theorem claim_C1_counterexample :
    submitExpense "id1" "2026-10-11" "" (some (25/2)) (some "food") false []
      { accessTokenS := none, expiresAtS := none, sheetId := none,
        expensesRaw := some [], loginHint := none, numericSheetId := none } =
      ([],
       { accessTokenS := none, expiresAtS := none, sheetId := none,
         expensesRaw := some [], loginHint := none, numericSheetId := none },
       SubmitOutcome.remoteError) := by
  have h : ¬ ((25 : Rat)/2 ≤ 0) := by norm_num
  simp [submitExpense, h]

/-- C1 amended: for every valid draft (positive parsed amount,
category selected), `submitExpense` issues the remote append first and
appends the record to the in-memory cache and persists it only when
the remote call succeeds; when the remote append fails it reports the
failure and leaves both the in-memory list and the persisted cache
unchanged — the record is NOT kept locally. -/
theorem claim_C1_amended_remote_first (freshId today comment : String)
    (amount : Rat) (cat : String) (expenses : List Expense) (st : Store)
    (hamt : 0 < amount) :
    submitExpense freshId today comment (some amount) (some cat) true expenses st =
      (expenses ++ [⟨freshId, today, cat, amount, comment⟩],
       { st with expensesRaw := some (expenses ++ [⟨freshId, today, cat, amount, comment⟩]) },
       SubmitOutcome.added) ∧
    submitExpense freshId today comment (some amount) (some cat) false expenses st =
      (expenses, st, SubmitOutcome.remoteError) := by
  have hna : ¬ (amount ≤ 0) := not_le.mpr hamt
  constructor <;> simp [submitExpense, hna]

/-- Witness for the amended C1 at the draft from the spec scenario. -/
theorem claim_C1_witness :
    submitExpense "id1" "2026-10-11" "" (some (25/2)) (some "food") false []
      { accessTokenS := none, expiresAtS := none, sheetId := none,
        expensesRaw := some [], loginHint := none, numericSheetId := none } =
      ([],
       { accessTokenS := none, expiresAtS := none, sheetId := none,
         expensesRaw := some [], loginHint := none, numericSheetId := none },
       SubmitOutcome.remoteError) :=
  (claim_C1_amended_remote_first "id1" "2026-10-11" "" (25/2) "food" []
    { accessTokenS := none, expiresAtS := none, sheetId := none,
      expensesRaw := some [], loginHint := none, numericSheetId := none }
    (by norm_num)).2

/-- C3: at a state with a pending silent flow and a queued waiter,
firing the 5-second fallback timer clears the flow tag and fires the
silent-failure callback but emits no rejection and leaves the waiter
queued — unlike `handleFailedFlow`, the explicit silent-failure path,
which rejects the waiter before firing the callback. The
cancel-on-channel half of the claim does hold: both the response and
the error channel disarm the timer. -/
theorem claim_C3_timer_skips_waiter_rejection :
    (timerFire
      { tokenClientReady := true, accessToken := none,
        pendingFlowType := some Flow.silent, timerArmed := true,
        tokenWaiters := [7],
        store := { accessTokenS := none, expiresAtS := none, sheetId := none,
                   expensesRaw := none, loginHint := none, numericSheetId := none } } =
      ({ tokenClientReady := true, accessToken := none, pendingFlowType := none,
         timerArmed := false, tokenWaiters := [7],
         store := { accessTokenS := none, expiresAtS := none, sheetId := none,
                    expensesRaw := none, loginHint := none, numericSheetId := none } },
       [AuthEvent.cbSilentFail])) ∧
    (handleFailedFlow (some Flow.silent) "OAuth error: x"
      { tokenClientReady := true, accessToken := none, pendingFlowType := none,
        timerArmed := true, tokenWaiters := [7],
        store := { accessTokenS := none, expiresAtS := none, sheetId := none,
                   expensesRaw := none, loginHint := none, numericSheetId := none } } =
      ({ tokenClientReady := true, accessToken := none, pendingFlowType := none,
         timerArmed := true, tokenWaiters := [],
         store := { accessTokenS := none, expiresAtS := none, sheetId := none,
                    expensesRaw := none, loginHint := none, numericSheetId := none } },
       [AuthEvent.rejectWaiter 7 "OAuth error: x", AuthEvent.cbSilentFail])) ∧
    (∀ (now : Int) (resp : TokenResponse) (st : AuthState),
        (onTokenResponse now resp st).1.timerArmed = false) ∧
    (∀ (err : AuthErr) (st : AuthState),
        (onTokenError err st).1.timerArmed = false) := by
  refine ⟨by simp [timerFire], by simp [handleFailedFlow], ?_, ?_⟩
  · intro now resp st
    by_cases h : jsTruthyStr resp.error = true <;>
      simp [onTokenResponse, handleFailedFlow, h]
  · intro err st
    by_cases h1 : isSilentAuthError err = true
    · by_cases h2 : st.pendingFlowType = some Flow.silent <;>
        by_cases h3 : err.type == some "popup_closed" <;>
        simp [onTokenError, h1, h2, h3]
    · simp [onTokenError, h1, handleFailedFlow]

/-- C4 counterexample: in the part_004 variant of `deleteExpense`, a
failed remote delete leaves the record in the local cache — the cache
is only filtered after the remote call succeeds, so it is not
observably empty of the id while the remote delete is pending, and a
remote failure keeps the record. -/
theorem claim_C4_counterexample :
    deleteExpenseV2 "X" false
      [⟨"X", "2026-10-11", "food", 5, ""⟩]
      ⟨none, none, none, some [⟨"X", "2026-10-11", "food", 5, ""⟩], none, none⟩ =
      ([⟨"X", "2026-10-11", "food", 5, ""⟩],
       ⟨none, none, none, some [⟨"X", "2026-10-11", "food", 5, ""⟩], none, none⟩,
       DeleteOutcome.remoteError) := by
  simp [deleteExpenseV2]

/-- C4 amended: in the expenseController.js variant the claim holds —
`deleteExpense` filters the record out of the cache and persists
immediately, before and independent of the remote delete, so no record
with the id remains locally and a remote failure re-inserts nothing;
in the part_004 variant the filtering happens only after the remote
delete succeeds, and a remote failure leaves the cache unchanged. -/
theorem claim_C4_amended_delete_variants (id : String) (remoteOk : Bool)
    (expenses : List Expense) (st : Store) :
    ((deleteExpense id remoteOk expenses st).1 =
        expenses.filter (fun e => e.id != id) ∧
     (deleteExpense id remoteOk expenses st).2.1.expensesRaw =
        some (expenses.filter (fun e => e.id != id)) ∧
     (∀ e ∈ (deleteExpense id remoteOk expenses st).1, e.id ≠ id) ∧
     (deleteExpense id true expenses st).1 = (deleteExpense id false expenses st).1) ∧
    deleteExpenseV2 id false expenses st = (expenses, st, DeleteOutcome.remoteError) := by
  refine ⟨⟨rfl, rfl, ?_, rfl⟩, by simp [deleteExpenseV2]⟩
  intro e he
  simp only [deleteExpense, List.mem_filter] at he
  simpa using he.2

/-- Witness for the amended C4: adding then deleting id `"X"` leaves
the local cache empty of it even with the remote delete failing. -/
theorem claim_C4_witness :
    (deleteExpense "X" false
      [⟨"X", "2026-10-11", "food", 5, ""⟩]
      ⟨none, none, none, some [⟨"X", "2026-10-11", "food", 5, ""⟩], none, none⟩).1 =
      [(⟨"X", "2026-10-11", "food", 5, ""⟩ : Expense)].filter (fun e => e.id != "X") ∧
    deleteExpenseV2 "X" false
      [⟨"X", "2026-10-11", "food", 5, ""⟩]
      ⟨none, none, none, some [⟨"X", "2026-10-11", "food", 5, ""⟩], none, none⟩ =
      ([⟨"X", "2026-10-11", "food", 5, ""⟩],
       ⟨none, none, none, some [⟨"X", "2026-10-11", "food", 5, ""⟩], none, none⟩,
       DeleteOutcome.remoteError) :=
  ⟨(claim_C4_amended_delete_variants "X" false
      [⟨"X", "2026-10-11", "food", 5, ""⟩]
      ⟨none, none, none, some [⟨"X", "2026-10-11", "food", 5, ""⟩], none, none⟩).1.1,
   (claim_C4_amended_delete_variants "X" false
      [⟨"X", "2026-10-11", "food", 5, ""⟩]
      ⟨none, none, none, some [⟨"X", "2026-10-11", "food", 5, ""⟩], none, none⟩).2⟩

end Spengo
